import Mathlib

/-!
Verification of the tweet-thread generation core
(`Backend/tweet_generator.py`): the LLM-response parser
(`parse_tweet_response`), the length/numbering/capping pipeline inlined in
`generate_tweet_thread` (specified as the Constraint Enforcer `enforce`),
the prompt-template registry (`TWEET_PROMPTS` with tone fallback) and the
orchestrator (`generate_tweet_thread`).

Python strings are modelled as Lean `String` (Python `len` counts code
points, as does `String.length`); Python `json.loads` is modelled by an
executable JSON reader `jsonLoads`; the external LangChain model call is a
collaborator and enters the embedding as an `Except String String`
argument (error = the model call raised, ok = the completion text).
-/

set_option maxRecDepth 16384

namespace TweetGen

/-- A decoded JSON value, as produced by Python's `json.loads`.  Numbers
keep their source token (`jnum raw`): the generation pipeline never uses
numeric values, only whether the decoded value is a list. -/
inductive Json where
  | jnull
  | jbool (b : Bool)
  | jnum (raw : String)
  | jstr (s : String)
  | jarr (elems : List Json)
  | jobj (fields : List (String × Json))
deriving Repr

/-- The whitespace characters skipped by Python's JSON decoder (` \t\n\r`). -/
def isJsonWs (c : Char) : Bool :=
  c = ' ' || c = '\t' || c = '\n' || c = '\r'

/-- Skip JSON whitespace. -/
def skipWs (cs : List Char) : List Char :=
  cs.dropWhile isJsonWs

/-- Value of one hexadecimal digit, for `\uXXXX` escapes. -/
def hexDigitVal (c : Char) : Option Nat :=
  if '0' ≤ c ∧ c ≤ '9' then some (c.toNat - '0'.toNat)
  else if 'a' ≤ c ∧ c ≤ 'f' then some (c.toNat - 'a'.toNat + 10)
  else if 'A' ≤ c ∧ c ≤ 'F' then some (c.toNat - 'A'.toNat + 10)
  else none

/-- JSON single-character string escapes. -/
def escChar : Char → Option Char
  | '"' => some '"'
  | '\\' => some '\\'
  | '/' => some '/'
  | 'b' => some (Char.ofNat 8)
  | 'f' => some (Char.ofNat 12)
  | 'n' => some '\n'
  | 'r' => some (Char.ofNat 13)
  | 't' => some '\t'
  | _ => none

/-- Body of a JSON string literal, after the opening quote: returns the
decoded contents and the input after the closing quote.  Python's decoder
(strict mode) rejects raw control characters; `\uXXXX` is decoded to the
scalar value (surrogate pairs, which Lean `Char` cannot hold, are out of
scope for any input considered here). -/
def parseStringBody : List Char → Option (String × List Char)
  | [] => none
  | '"' :: rest => some ("", rest)
  | '\\' :: 'u' :: h1 :: h2 :: h3 :: h4 :: rest =>
    match hexDigitVal h1, hexDigitVal h2, hexDigitVal h3, hexDigitVal h4 with
    | some a, some b, some c, some d =>
      match parseStringBody rest with
      | some (s, r) => some (String.mk (Char.ofNat (((a * 16 + b) * 16 + c) * 16 + d) :: s.data), r)
      | none => none
    | _, _, _, _ => none
  | '\\' :: e :: rest =>
    match escChar e with
    | some c =>
      match parseStringBody rest with
      | some (s, r) => some (String.mk (c :: s.data), r)
      | none => none
    | none => none
  | c :: rest =>
    if c.toNat < 32 then none
    else
      match parseStringBody rest with
      | some (s, r) => some (String.mk (c :: s.data), r)
      | none => none

/-- Longest digit run at the head of the input, and the remainder. -/
def digitsSpan (cs : List Char) : List Char × List Char :=
  (cs.takeWhile Char.isDigit, cs.dropWhile Char.isDigit)

/-- Integer part of a JSON number: `0`, or a nonzero digit followed by
digits (the grammar Python's `NUMBER_RE` accepts). -/
def parseIntPart : List Char → Option (List Char × List Char)
  | '0' :: rest => some (['0'], rest)
  | c :: rest =>
    if c.isDigit then
      let (ds, r) := digitsSpan rest
      some (c :: ds, r)
    else none
  | [] => none

/-- Optional fractional part `.digits`. -/
def parseFracPart : List Char → Option (List Char × List Char)
  | '.' :: rest =>
    let (ds, r) := digitsSpan rest
    if ds.isEmpty then none else some ('.' :: ds, r)
  | cs => some ([], cs)

/-- Optional exponent part `[eE][+-]?digits`. -/
def parseExpPart : List Char → Option (List Char × List Char)
  | [] => some ([], [])
  | c :: rest =>
    if c = 'e' ∨ c = 'E' then
      match rest with
      | s :: rest2 =>
        if s = '+' ∨ s = '-' then
          let (ds, r) := digitsSpan rest2
          if ds.isEmpty then none else some (c :: s :: ds, r)
        else
          let (ds, r) := digitsSpan rest
          if ds.isEmpty then none else some (c :: ds, r)
      | [] => none
    else some ([], c :: rest)

/-- A JSON number token (Python additionally accepts `-Infinity` here).
On a malformed fraction/exponent this fails outright where Python's regex
would stop earlier and leave the junk in the input; since the junk (`.`,
`e`, a digit, ...) can never continue a JSON document, both behaviors make
the whole decode fail on exactly the same inputs. -/
def parseNumberTok (cs : List Char) : Option (Json × List Char) :=
  let (sign, cs1) := match cs with
    | '-' :: r => (['-'], r)
    | _ => (([] : List Char), cs)
  if sign ≠ [] ∧ ['I','n','f','i','n','i','t','y'].isPrefixOf cs1 then
    some (.jnum "-Infinity", cs1.drop 8)
  else
    match parseIntPart cs1 with
    | none => none
    | some (ip, r1) =>
      match parseFracPart r1 with
      | none => none
      | some (fp, r2) =>
        match parseExpPart r2 with
        | none => none
        | some (ep, r3) => some (.jnum (String.mk (sign ++ ip ++ fp ++ ep)), r3)

/-- Expect a literal keyword tail (`ull` after `n`, etc.). -/
def expectLit (lit : List Char) (cs : List Char) (v : Json) : Option (Json × List Char) :=
  if lit.isPrefixOf cs then some (v, cs.drop lit.length) else none

mutual

/-- One JSON value (leading whitespace allowed), returning the value and
the rest of the input.  Fuel-indexed; `jsonLoads` supplies ample fuel
(every two units of fuel consume at least one input character). -/
def parseValue : Nat → List Char → Option (Json × List Char)
  | 0, _ => none
  | fuel + 1, cs =>
    match skipWs cs with
    | [] => none
    | c :: rest =>
      if c = '"' then
        match parseStringBody rest with
        | some (s, r) => some (.jstr s, r)
        | none => none
      else if c = '[' then
        match skipWs rest with
        | ']' :: r => some (.jarr [], r)
        | cs2 =>
          match parseItems fuel cs2 with
          | some (vs, r) => some (.jarr vs, r)
          | none => none
      else if c = '{' then
        match skipWs rest with
        | '}' :: r => some (.jobj [], r)
        | cs2 =>
          match parseMembers fuel cs2 with
          | some (ms, r) => some (.jobj ms, r)
          | none => none
      else if c = 'n' then expectLit ['u','l','l'] rest .jnull
      else if c = 't' then expectLit ['r','u','e'] rest (.jbool true)
      else if c = 'f' then expectLit ['a','l','s','e'] rest (.jbool false)
      else if c = 'N' then expectLit ['a','N'] rest (.jnum "NaN")
      else if c = 'I' then expectLit ['n','f','i','n','i','t','y'] rest (.jnum "Infinity")
      else parseNumberTok (c :: rest)

/-- Comma-separated values of a nonempty JSON array, up to and including
the closing `]`. -/
def parseItems : Nat → List Char → Option (List Json × List Char)
  | 0, _ => none
  | fuel + 1, cs =>
    match parseValue fuel cs with
    | none => none
    | some (v, rest) =>
      match skipWs rest with
      | ',' :: rest2 =>
        match parseItems fuel rest2 with
        | some (vs, r) => some (v :: vs, r)
        | none => none
      | ']' :: rest2 => some ([v], rest2)
      | _ => none

/-- Key-value members of a nonempty JSON object, up to and including the
closing brace. -/
def parseMembers : Nat → List Char → Option (List (String × Json) × List Char)
  | 0, _ => none
  | fuel + 1, cs =>
    match skipWs cs with
    | '"' :: rest =>
      match parseStringBody rest with
      | none => none
      | some (key, r1) =>
        match skipWs r1 with
        | ':' :: r2 =>
          match parseValue fuel r2 with
          | none => none
          | some (v, r3) =>
            match skipWs r3 with
            | ',' :: r4 =>
              match parseMembers fuel r4 with
              | some (ms, r) => some ((key, v) :: ms, r)
              | none => none
            | '}' :: r4 => some ([(key, v)], r4)
            | _ => none
        | _ => none
    | _ => none

end

/-- Model of Python `json.loads`: decode one JSON document and require
that only whitespace follows (otherwise Python raises "Extra data"). -/
def jsonLoads (s : String) : Option Json :=
  match parseValue (2 * s.length + 2) s.data with
  | some (v, rest) => if (skipWs rest).isEmpty then some v else none
  | none => none

/-- Index of the last occurrence of `c`, if any. -/
def lastIdxOf (c : Char) : List Char → Option Nat
  | [] => none
  | x :: xs =>
    match lastIdxOf c xs with
    | some k => some (k + 1)
    | none => if x = c then some 0 else none

/-- Model of `re.search(r'\[.*\]', text, re.DOTALL)`: the engine tries
start positions left to right; the pattern matches at a position iff the
character there is `[` and some `]` occurs later; the greedy `.*` (with
DOTALL, so newlines included) then extends the match to the last such
`]`. -/
def regexMatchBrackets : List Char → Option (List Char)
  | [] => none
  | c :: rest =>
    if c = '[' then
      match lastIdxOf ']' rest with
      | some k => some ('[' :: rest.take (k + 1))
      | none => regexMatchBrackets rest
    else regexMatchBrackets rest

/-- Error message raised (as a `ValueError`, the spec's `ParseError`) when
no JSON array can be located in the model response. -/
def parseErrorMsg : String := "Could not parse tweets from LLM response"

/-- `parse_tweet_response` (tweet_generator.py:177-210): try `json.loads`
on the whole response and return the value if it is a list; otherwise
extract `re.search(r'\[.*\]', ..., re.DOTALL)` and retry; otherwise raise
`ValueError("Could not parse tweets from LLM response")`. -/
def parse_tweet_response (response_text : String) : Except String (List Json) :=
  match jsonLoads response_text with
  | some (.jarr tweets) => .ok tweets
  | _ =>
    match regexMatchBrackets response_text.data with
    | some sub =>
      match jsonLoads (String.mk sub) with
      | some (.jarr tweets) => .ok tweets
      | _ => .error parseErrorMsg
    | none => .error parseErrorMsg

/-- Python list slice `l[:n]`: a negative bound counts from the end
(clamped at zero), a bound past the end takes everything. -/
def pySliceList {α : Type} (n : Int) (l : List α) : List α :=
  if 0 ≤ n then l.take n.toNat else l.take (l.length - (-n).toNat)

/-- Python string slice `s[:n]`. -/
def pySliceStr (n : Int) (s : String) : String :=
  String.mk (pySliceList n s.data)

/-- `validate_tweet_length` (tweet_generator.py:134-145). -/
def validate_tweet_length (tweet : String) (max_length : Nat := 280) : Bool :=
  tweet.length ≤ max_length

/-- The `[i/total] ` thread-number string built at tweet_generator.py:163. -/
def threadNumberStr (i total : Nat) : String :=
  "[" ++ toString i ++ "/" ++ toString total ++ "] "

/-- One iteration of the numbering loop (tweet_generator.py:161-172):
keep `prefix + tweet` when it fits in 280 characters, else trim the tweet
to `max_tweet_length - 3 = 280 - len(prefix) - 3` characters (a Python
slice, so a negative bound counts from the end) and append `"..."`.  The
loop locals `thread_number` and `max_tweet_length` are written inline. -/
def numberOne (total i : Nat) (tweet : String) : String :=
  if (threadNumberStr i total ++ tweet).length ≤ 280 then threadNumberStr i total ++ tweet
  else
    threadNumberStr i total
      ++ (pySliceStr (280 - ((threadNumberStr i total).length : Int) - 3) tweet ++ "...")

/-- The `enumerate(tweets, 1)` loop of `add_thread_numbering`. -/
def numberFrom (total : Nat) : Nat → List String → List String
  | _, [] => []
  | i, t :: ts => numberOne total i t :: numberFrom total (i + 1) ts

/-- `add_thread_numbering` (tweet_generator.py:148-174). -/
def add_thread_numbering (tweets : List String) : List String :=
  numberFrom tweets.length 1 tweets

/-- Per-tweet clamp from the loop at tweet_generator.py:282-287: a tweet
over 280 characters becomes its first 277 characters plus `"..."`. -/
def clampTweet (tweet : String) : String :=
  if validate_tweet_length tweet then tweet else pySliceStr 277 tweet ++ "..."

/-- Step A of the Constraint Enforcer: the length-validation loop
(tweet_generator.py:281-287). -/
def clampStep (tweets : List String) : List String :=
  tweets.map clampTweet

/-- Step B of the Constraint Enforcer: numbering, applied only when
requested and when there is more than one tweet
(tweet_generator.py:290-291). -/
def numberStep (add_numbering : Bool) (tweets : List String) : List String :=
  if add_numbering ∧ tweets.length > 1 then add_thread_numbering tweets else tweets

/-- Step C of the Constraint Enforcer: cap at `max_tweets`
(tweet_generator.py:293-295). -/
def capStep (max_tweets : Int) (tweets : List String) : List String :=
  if (tweets.length : Int) > max_tweets then pySliceList max_tweets tweets else tweets

/-- The Constraint Enforcer `enforce`: the pipeline inlined in
`generate_tweet_thread` at tweet_generator.py:280-295. -/
def enforce (tweets : List String) (add_numbering : Bool) (max_tweets : Int) : List String :=
  capStep max_tweets (numberStep add_numbering (clampStep tweets))

/-- Characters stripped by Python `str.strip()` (the ASCII whitespace
subset; full Unicode whitespace is irrelevant to the inputs considered). -/
def pyIsSpace (c : Char) : Bool :=
  c = ' ' || c = '\t' || c = '\n' || c = '\r' || c = '\x0b' || c = '\x0c'

/-- Python `str.strip()`. -/
def pyStrip (s : String) : String :=
  String.mk (((s.data.dropWhile pyIsSpace).reverse.dropWhile pyIsSpace).reverse)

/-- Python `str.lower()` (ASCII case folding; the template keys and every
input considered are ASCII). -/
def pyLower (s : String) : String :=
  String.mk (s.data.map Char.toLower)

/-- Template for tone `professional` (tweet_generator.py:28-40). -/
def professionalTemplate : String :=
  "You are a professional social media strategist. Create a professional and informative tweet thread.\n\nRules:\n- Each tweet must be EXACTLY under 280 characters\n- Create {tweet_count} tweets that flow naturally\n- Use clear, professional language\n- Focus on providing value and insights\n- Add relevant hashtags only in the last tweet\n- Return ONLY a valid JSON array of strings, nothing else\n\nTopic: {topic}\n\nReturn format: [\"Tweet 1 text here\", \"Tweet 2 text here\", ...]"

/-- Template for tone `casual` (tweet_generator.py:42-54). -/
def casualTemplate : String :=
  "You are a friendly social media content creator. Create a casual and conversational tweet thread.\n\nRules:\n- Each tweet must be EXACTLY under 280 characters\n- Create {tweet_count} tweets that flow naturally\n- Use friendly, conversational tone\n- Include personal touches and relatability\n- Add appropriate emojis sparingly (1-2 per tweet max)\n- Return ONLY a valid JSON array of strings, nothing else\n\nTopic: {topic}\n\nReturn format: [\"Tweet 1 text here\", \"Tweet 2 text here\", ...]"

/-- Template for tone `humorous` (tweet_generator.py:56-68). -/
def humorousTemplate : String :=
  "You are a witty social media personality. Create an entertaining and humorous tweet thread.\n\nRules:\n- Each tweet must be EXACTLY under 280 characters\n- Create {tweet_count} tweets that flow naturally\n- Use humor, wit, and clever observations\n- Keep it lighthearted but informative\n- Add relevant emojis to enhance humor\n- Return ONLY a valid JSON array of strings, nothing else\n\nTopic: {topic}\n\nReturn format: [\"Tweet 1 text here\", \"Tweet 2 text here\", ...]"

/-- Template for tone `engaging` (tweet_generator.py:70-82). -/
def engagingTemplate : String :=
  "You are a social media expert specializing in engagement. Create a highly engaging tweet thread.\n\nRules:\n- Each tweet must be EXACTLY under 280 characters\n- Create {tweet_count} tweets that flow naturally\n- Use hooks, curiosity gaps, and strong conclusions\n- Make it shareable and thought-provoking\n- Include strategic emojis for emphasis\n- Return ONLY a valid JSON array of strings, nothing else\n\nTopic: {topic}\n\nReturn format: [\"Tweet 1 text here\", \"Tweet 2 text here\", ...]"

/-- Template for tone `educational` (tweet_generator.py:84-96). -/
def educationalTemplate : String :=
  "You are an educational content creator. Create an informative and educational tweet thread.\n\nRules:\n- Each tweet must be EXACTLY under 280 characters\n- Create {tweet_count} tweets that flow naturally\n- Break down complex topics into simple explanations\n- Use clear examples and analogies\n- End with key takeaways or action items\n- Return ONLY a valid JSON array of strings, nothing else\n\nTopic: {topic}\n\nReturn format: [\"Tweet 1 text here\", \"Tweet 2 text here\", ...]"

/-- The immutable prompt-template table `TWEET_PROMPTS`
(tweet_generator.py:27-97). -/
def TWEET_PROMPTS : List (String × String) :=
  [("professional", professionalTemplate),
   ("casual", casualTemplate),
   ("humorous", humorousTemplate),
   ("engaging", engagingTemplate),
   ("educational", educationalTemplate)]

/-- Tone resolution (tweet_generator.py:249-251): `tone.lower() if tone
else "engaging"` (Python counts `None` and the empty string as falsy),
then fall back to `engaging` when the key is unknown. -/
def resolveTone (tone : Option String) : String :=
  let t := match tone with
    | some s => if s = "" then "engaging" else pyLower s
    | none => "engaging"
  if (TWEET_PROMPTS.lookup t).isSome then t else "engaging"

/-- The Prompt Template Registry lookup: the template chosen at
tweet_generator.py:253 for a given requested tone. -/
def lookupTemplate (tone : Option String) : String :=
  (TWEET_PROMPTS.lookup (resolveTone tone)).getD ""

/-- Checks that every decoded element is a string, returning the string
list.  Python has no such step: a non-string element raises a `TypeError`
inside the guarded block of `generate_tweet_thread` when `len(tweet)` or
string concatenation is attempted, which the blanket handler wraps like
any other in-flight failure.  No claim touches non-string elements beyond
that wrapping. -/
def allStrings : List Json → Option (List String)
  | [] => some []
  | .jstr s :: rest => (allStrings rest).map (s :: ·)
  | _ => none

/-- The record returned by `generate_tweet_thread`
(tweet_generator.py:297-302). -/
structure GenerationResult where
  tweets : List String
  tweet_count : Nat
  tone : String
  topic : String
deriving Repr, DecidableEq

/-- The cause wrapped by the blanket handler at tweet_generator.py:304-305
(`raise Exception(f"Failed to generate tweets: {str(e)}")`: the new
exception's text embeds `str(e)` and Python chains the original exception
as implicit context, so the original cause travels with it). -/
inductive GenCause where
  | modelError (message : String)
  | parseError (message : String)
  | typeError (message : String)
deriving Repr, DecidableEq

/-- The two error kinds that leave `generate_tweet_thread`: the
`ValueError`s of input validation (the spec's `ValidationError`) and the
wrapped in-flight failure (the spec's `GenerationFailure`). -/
inductive GenError where
  | validationError (message : String)
  | generationFailure (cause : GenCause)
deriving Repr, DecidableEq

/-- `generate_tweet_thread` (tweet_generator.py:213-305).  The external
model call is a collaborator: its outcome (raised error or completion
text) is the `modelResult` argument.  `temperature` is forwarded to the
collaborator and never inspected, so its value cannot influence the
result. -/
def generate_tweet_thread (topic : String) (tone : Option String) (max_tweets : Int)
    (add_numbering : Bool) (temperature : ℚ) (modelResult : Except String String) :
    Except GenError GenerationResult :=
  if topic = "" ∨ (pyStrip topic).length < 10 then
    .error (.validationError "Topic must be at least 10 characters long")
  else if max_tweets < 1 ∨ max_tweets > 20 then
    .error (.validationError "max_tweets must be between 1 and 20")
  else
    let tone' := resolveTone tone
    match modelResult with
    | .error e => .error (.generationFailure (.modelError e))
    | .ok response_text =>
      match parse_tweet_response response_text with
      | .error msg => .error (.generationFailure (.parseError msg))
      | .ok parsed =>
        match allStrings parsed with
        | none => .error (.generationFailure (.typeError "object has no len or cannot be concatenated"))
        | some tweets =>
          let valid_tweets := enforce tweets add_numbering max_tweets
          .ok { tweets := valid_tweets, tweet_count := valid_tweets.length,
                tone := tone', topic := topic }

/-! ### Basic string/slice lemmas -/

theorem length_mk (l : List Char) : (String.mk l).length = l.length := rfl

theorem data_append (a b : String) : (a ++ b).data = a.data ++ b.data := rfl

theorem data_length (s : String) : s.data.length = s.length := rfl

theorem pySliceStr_nonneg (n : Int) (h : 0 ≤ n) (s : String) :
    pySliceStr n s = String.mk (s.data.take n.toNat) := by
  simp [pySliceStr, pySliceList, h]

theorem pySliceStr_empty (n : Int) : pySliceStr n "" = "" := by
  have h : ∀ k : Nat, String.mk (List.take k ([] : List Char)) = "" := by
    intro k
    rw [List.take_nil]
  unfold pySliceStr pySliceList
  split <;> exact h _

theorem pySliceList_nonneg {α : Type} (n : Int) (h : 0 ≤ n) (l : List α) :
    pySliceList n l = l.take n.toNat := by
  simp [pySliceList, h]

/-! ### Clamp lemmas (Step A) -/

theorem clampTweet_of_le {t : String} (h : t.length ≤ 280) : clampTweet t = t := by
  simp [clampTweet, validate_tweet_length, h]

theorem clampTweet_of_gt {t : String} (h : 280 < t.length) :
    clampTweet t = pySliceStr 277 t ++ "..." := by
  simp [clampTweet, validate_tweet_length, Nat.not_le.mpr h]

theorem length_clampTweet_of_gt {t : String} (h : 280 < t.length) :
    (clampTweet t).length = 280 := by
  rw [clampTweet_of_gt h, String.length_append, pySliceStr_nonneg 277 (by norm_num),
    length_mk, List.length_take]
  have h277 : (277 : Int).toNat = 277 := rfl
  have h3 : ("..." : String).length = 3 := rfl
  have ht : t.data.length = t.length := rfl
  omega

theorem clampTweet_length_le (t : String) : (clampTweet t).length ≤ 280 := by
  by_cases h : t.length ≤ 280
  · rw [clampTweet_of_le h]; exact h
  · rw [length_clampTweet_of_gt (Nat.not_le.mp h)]

theorem clampTweet_idem (t : String) : clampTweet (clampTweet t) = clampTweet t :=
  clampTweet_of_le (clampTweet_length_le t)

/-! ### Cap lemmas (Step C) -/

theorem mem_capStep {x : String} {mt : Int} {l : List String} (h : x ∈ capStep mt l) :
    x ∈ l := by
  unfold capStep at h
  split at h
  · unfold pySliceList at h
    split at h <;> exact List.mem_of_mem_take h
  · exact h

theorem length_capStep_le (mt : Int) (h : 0 ≤ mt) (l : List String) :
    ((capStep mt l).length : Int) ≤ mt := by
  unfold capStep
  split
  · rw [pySliceList_nonneg mt h, List.length_take]
    omega
  · omega

/-! ### Numbering lemmas (Step B) -/

theorem numberFrom_length (total : Nat) : ∀ (k : Nat) (ts : List String),
    (numberFrom total k ts).length = ts.length := by
  intro k ts
  induction ts generalizing k with
  | nil => rfl
  | cons t ts ih => simp [numberFrom, ih]

theorem numberFrom_getElem? (total : Nat) : ∀ (ts : List String) (k i : Nat),
    (numberFrom total k ts)[i]? = (ts[i]?).map (numberOne total (k + i)) := by
  intro ts
  induction ts with
  | nil => intro k i; rfl
  | cons t ts ih =>
    intro k i
    cases i with
    | zero => simp [numberFrom]
    | succ i =>
      have hcons : numberFrom total k (t :: ts)
          = numberOne total k t :: numberFrom total (k + 1) ts := rfl
      rw [hcons, List.getElem?_cons_succ, List.getElem?_cons_succ, ih (k + 1) i,
        show k + 1 + i = k + (i + 1) from by omega]

theorem numberOne_of_fits {total i : Nat} {t : String}
    (h : (threadNumberStr i total ++ t).length ≤ 280) :
    numberOne total i t = threadNumberStr i total ++ t := by
  unfold numberOne
  rw [if_pos h]

theorem numberOne_of_over {total i : Nat} {t : String}
    (hL : (threadNumberStr i total).length ≤ 277)
    (h : 280 < (threadNumberStr i total ++ t).length) :
    numberOne total i t
      = threadNumberStr i total
          ++ (String.mk (t.data.take (277 - (threadNumberStr i total).length)) ++ "...") := by
  unfold numberOne
  rw [if_neg (Nat.not_le.mpr h)]
  have hn : (0 : Int) ≤ 280 - ((threadNumberStr i total).length : Int) - 3 := by omega
  rw [pySliceStr_nonneg _ hn]
  have harg : (280 - ((threadNumberStr i total).length : Int) - 3).toNat
      = 277 - (threadNumberStr i total).length := by omega
  rw [harg]

theorem numberOne_length_over {total i : Nat} {t : String}
    (hL : (threadNumberStr i total).length ≤ 277)
    (h : 280 < (threadNumberStr i total ++ t).length) :
    (numberOne total i t).length = 280 := by
  rw [numberOne_of_over hL h]
  rw [String.length_append] at h
  have ht : t.data.length = t.length := rfl
  have h3 : ("..." : String).length = 3 := rfl
  simp only [String.length_append, length_mk, List.length_take]
  omega

theorem numberOne_length_le {total i : Nat} (t : String)
    (hL : (threadNumberStr i total).length ≤ 277) :
    (numberOne total i t).length ≤ 280 := by
  by_cases h : (threadNumberStr i total ++ t).length ≤ 280
  · rw [numberOne_of_fits h]; exact h
  · rw [numberOne_length_over hL (Nat.not_le.mp h)]

/-! ### C5: the per-item length clamp -/

/-- C5.  Step A of `enforce`: an element over 280 characters becomes its
first 277 characters plus a literal `"..."` (total exactly 280); an
element of length at most 280 is unchanged; order and count are preserved;
`enforce` on one 300-character string with numbering off yields one
element of length exactly 280 ending in `"..."`. -/
theorem clamp_step_spec :
    (∀ t : String, t.length ≤ 280 → clampTweet t = t) ∧
    (∀ t : String, 280 < t.length →
      clampTweet t = pySliceStr 277 t ++ "..." ∧ (clampTweet t).length = 280) ∧
    (∀ ts : List String, clampStep ts = ts.map clampTweet ∧
      (clampStep ts).length = ts.length) ∧
    (enforce [String.mk (List.replicate 300 'x')] false 5
        = [String.mk (List.replicate 277 'x') ++ "..."] ∧
      (String.mk (List.replicate 277 'x') ++ "...").length = 280 ∧
      "...".data.isSuffixOf (String.mk (List.replicate 277 'x') ++ "...").data = true) := by
  refine ⟨fun t h => clampTweet_of_le h,
    fun t h => ⟨clampTweet_of_gt h, length_clampTweet_of_gt h⟩,
    fun ts => ⟨rfl, by simp [clampStep]⟩, by decide, by decide, by decide⟩

/-- Witness for C5 at concrete inputs. -/
theorem clamp_step_spec_witness :
    clampTweet "hello" = "hello" ∧
    clampTweet (String.mk (List.replicate 281 'a'))
      = pySliceStr 277 (String.mk (List.replicate 281 'a')) ++ "..." :=
  ⟨clamp_step_spec.1 "hello" (by decide),
    (clamp_step_spec.2.1 (String.mk (List.replicate 281 'a')) (by decide)).1⟩

/-! ### C4: the cap at the requested count -/

/-- C4.  Step C of `enforce`: when the clamped-and-numbered sequence is
longer than `max_tweets`, the result is exactly its first `max_tweets`
elements, and numbering prefixes are not recomputed: ten input tweets with
numbering and `max_tweets = 5` give five elements still prefixed
`[i/10]`. -/
theorem cap_step_spec :
    (∀ (ts : List String) (flag : Bool) (mt : Int), 1 ≤ mt →
      ((numberStep flag (clampStep ts)).length : Int) > mt →
      enforce ts flag mt = (numberStep flag (clampStep ts)).take mt.toNat) ∧
    (enforce ["t1","t2","t3","t4","t5","t6","t7","t8","t9","t10"] true 5
      = ["[1/10] t1","[2/10] t2","[3/10] t3","[4/10] t4","[5/10] t5"]) := by
  constructor
  · intro ts flag mt h1 h2
    unfold enforce capStep
    rw [if_pos h2, pySliceList_nonneg mt (by omega)]
  · decide

/-- Witness for C4 at concrete inputs. -/
theorem cap_step_spec_witness :
    enforce ["a", "b"] false 1 = (numberStep false (clampStep ["a", "b"])).take (1 : Int).toNat :=
  cap_step_spec.1 ["a", "b"] false 1 (by decide) (by decide)

/-! ### C9: idempotence of `enforce` without numbering -/

/-- C9.  With `addNumbering = false`, `enforce` is idempotent: a second
application with the same `maxTweets ≥ 1` to its own output changes
nothing (the second clamp and cap both trigger no change). -/
theorem enforce_idem_no_numbering :
    ∀ (ts : List String) (n : Int), 1 ≤ n →
      enforce (enforce ts false n) false n = enforce ts false n := by
  have hstep : ∀ l : List String, numberStep false l = l := by
    intro l; simp [numberStep]
  have henf : ∀ (l : List String) (n : Int), enforce l false n = capStep n (clampStep l) := by
    intro l n; unfold enforce; rw [hstep]
  intro ts n hn
  have h280 : ∀ x ∈ enforce ts false n, x.length ≤ 280 := by
    intro x hx
    rw [henf] at hx
    have := mem_capStep hx
    obtain ⟨y, -, rfl⟩ := List.mem_map.mp this
    exact clampTweet_length_le y
  have hclamp : clampStep (enforce ts false n) = enforce ts false n := by
    unfold clampStep
    rw [List.map_congr_left (fun x hx => clampTweet_of_le (h280 x hx)), List.map_id']
  have hlen : ((enforce ts false n).length : Int) ≤ n := by
    rw [henf]
    exact length_capStep_le n (by omega) _
  rw [henf (enforce ts false n) n, hclamp]
  unfold capStep
  rw [if_neg (by omega)]

/-- Witness for C9 at a concrete input. -/
theorem enforce_idem_no_numbering_witness :
    enforce (enforce ["hello world tweet"] false 1) false 1
      = enforce ["hello world tweet"] false 1 :=
  enforce_idem_no_numbering ["hello world tweet"] 1 (by decide)

/-! ### C8: totality of the tone lookup -/

/-- `needle` occurs as a contiguous substring of `hay`. -/
def containsSub (needle hay : List Char) : Bool :=
  hay.tails.any (needle.isPrefixOf ·)

/-- C8.  The tone lookup is total: each of the five known tones (matched
after case-folding) selects its template, every template contains the
`topic` and `tweet_count` placeholders, the dictionary indexing at
tweet_generator.py:253 can never fail, and every other input — `None`,
the empty string, unknown strings — silently falls back to the
`engaging` template. -/
theorem tone_lookup_spec :
    lookupTemplate none = engagingTemplate ∧
    lookupTemplate (some "") = engagingTemplate ∧
    (∀ s : String, (TWEET_PROMPTS.lookup (pyLower s)).isNone →
      lookupTemplate (some s) = engagingTemplate) ∧
    (∀ s : String, pyLower s = "professional" →
      lookupTemplate (some s) = professionalTemplate) ∧
    (∀ s : String, pyLower s = "casual" → lookupTemplate (some s) = casualTemplate) ∧
    (∀ s : String, pyLower s = "humorous" → lookupTemplate (some s) = humorousTemplate) ∧
    (∀ s : String, pyLower s = "engaging" → lookupTemplate (some s) = engagingTemplate) ∧
    (∀ s : String, pyLower s = "educational" →
      lookupTemplate (some s) = educationalTemplate) ∧
    (TWEET_PROMPTS.all (fun p => containsSub "{topic}".data p.2.data
      && containsSub "{tweet_count}".data p.2.data) = true) ∧
    (∀ tone : Option String, (TWEET_PROMPTS.lookup (resolveTone tone)).isSome = true) := by
  have hkey : ∀ (s key : String), key ≠ "" → pyLower s = key →
      (TWEET_PROMPTS.lookup key).isSome = true →
      lookupTemplate (some s) = (TWEET_PROMPTS.lookup key).getD "" := by
    intro s key hkeyne hlow hsome
    have hs : s ≠ "" := by
      intro h
      apply hkeyne
      rw [← hlow, h]
      rfl
    simp only [lookupTemplate, resolveTone]
    rw [if_neg hs, hlow, if_pos hsome]
  refine ⟨rfl, rfl, ?_, ?_, ?_, ?_, ?_, ?_, by decide, ?_⟩
  · intro s hnone
    by_cases hs : s = ""
    · rw [hs]; rfl
    · simp only [lookupTemplate, resolveTone]
      rw [if_neg hs, Option.isNone_iff_eq_none.mp hnone]
      rfl
  · intro s h; exact hkey s "professional" (by decide) h (by decide)
  · intro s h; exact hkey s "casual" (by decide) h (by decide)
  · intro s h; exact hkey s "humorous" (by decide) h (by decide)
  · intro s h; exact hkey s "engaging" (by decide) h (by decide)
  · intro s h; exact hkey s "educational" (by decide) h (by decide)
  · intro tone
    unfold resolveTone
    by_cases h : (TWEET_PROMPTS.lookup (match tone with
      | some s => if s = "" then "engaging" else pyLower s
      | none => "engaging")).isSome = true
    · rw [if_pos h]; exact h
    · rw [if_neg h]; decide

/-- Witness for C8 at concrete inputs. -/
theorem tone_lookup_spec_witness :
    lookupTemplate (some "weird tone") = engagingTemplate ∧
    lookupTemplate (some "PROFESSIONAL") = professionalTemplate :=
  ⟨tone_lookup_spec.2.2.1 "weird tone" (by decide),
    tone_lookup_spec.2.2.2.1 "PROFESSIONAL" (by decide)⟩

/-! ### C6: input validation of the orchestrator -/

theorem topic_valid {topic : String} (h : 10 ≤ (pyStrip topic).length) :
    ¬(topic = "" ∨ (pyStrip topic).length < 10) := by
  intro hc
  rcases hc with hc | hc
  · rw [hc] at h
    revert h
    decide
  · omega

/-- Normal form of `generate_tweet_thread` once both validations pass. -/
theorem generate_unfold (topic : String) (tone : Option String) (mt : Int) (flag : Bool)
    (temp : ℚ) (mr : Except String String)
    (h10 : 10 ≤ (pyStrip topic).length) (h1 : 1 ≤ mt) (h20 : mt ≤ 20) :
    generate_tweet_thread topic tone mt flag temp mr
      = match mr with
        | .error e => .error (.generationFailure (.modelError e))
        | .ok response_text =>
          match parse_tweet_response response_text with
          | .error msg => .error (.generationFailure (.parseError msg))
          | .ok parsed =>
            match allStrings parsed with
            | none => .error (.generationFailure
                (.typeError "object has no len or cannot be concatenated"))
            | some tweets =>
              .ok { tweets := enforce tweets flag mt,
                    tweet_count := (enforce tweets flag mt).length,
                    tone := resolveTone tone, topic := topic } := by
  unfold generate_tweet_thread
  rw [if_neg (topic_valid h10), if_neg (by omega : ¬(mt < 1 ∨ mt > 20))]

/-- C6.  `generate_tweet_thread` raises a `ValidationError` exactly when
the stripped topic is shorter than 10 characters or `max_tweets` is
outside `[1, 20]`; the topic check comes first, each failure carries its
own message and happens whatever the model collaborator would have
returned, and no other input (temperature included) can produce a
`ValidationError`. -/
theorem generate_validation_spec :
    (∀ (topic : String) (tone : Option String) (mt : Int) (flag : Bool) (temp : ℚ)
      (mr : Except String String), (pyStrip topic).length < 10 →
      generate_tweet_thread topic tone mt flag temp mr
        = .error (.validationError "Topic must be at least 10 characters long")) ∧
    (∀ (topic : String) (tone : Option String) (mt : Int) (flag : Bool) (temp : ℚ)
      (mr : Except String String), 10 ≤ (pyStrip topic).length → (mt < 1 ∨ 20 < mt) →
      generate_tweet_thread topic tone mt flag temp mr
        = .error (.validationError "max_tweets must be between 1 and 20")) ∧
    (∀ (topic : String) (tone : Option String) (mt : Int) (flag : Bool) (temp : ℚ)
      (mr : Except String String),
      (∃ m, generate_tweet_thread topic tone mt flag temp mr = .error (.validationError m))
        ↔ ((pyStrip topic).length < 10 ∨ mt < 1 ∨ 20 < mt)) := by
  refine ⟨?_, ?_, ?_⟩
  · intro topic tone mt flag temp mr h
    unfold generate_tweet_thread
    rw [if_pos (Or.inr h)]
  · intro topic tone mt flag temp mr h hmt
    unfold generate_tweet_thread
    rw [if_neg (topic_valid h), if_pos (by omega : mt < 1 ∨ mt > 20)]
  · intro topic tone mt flag temp mr
    constructor
    · rintro ⟨m, hm⟩
      by_contra hc
      push_neg at hc
      obtain ⟨h10, h1, h20⟩ := hc
      rw [generate_unfold topic tone mt flag temp mr (by omega) (by omega) (by omega)] at hm
      rcases mr with e | resp
      · simp at hm
      · rcases hp : parse_tweet_response resp with m' | js
        · simp [hp] at hm
        · rcases ha : allStrings js with - | ts
          · simp [hp, ha] at hm
          · simp [hp, ha] at hm
    · intro h
      by_cases h10 : (pyStrip topic).length < 10
      · refine ⟨"Topic must be at least 10 characters long", ?_⟩
        unfold generate_tweet_thread
        rw [if_pos (Or.inr h10)]
      · have hmt : mt < 1 ∨ 20 < mt := by
          rcases h with h | h | h
          · exact absurd h h10
          · exact Or.inl h
          · exact Or.inr h
        refine ⟨"max_tweets must be between 1 and 20", ?_⟩
        unfold generate_tweet_thread
        rw [if_neg (topic_valid (by omega)), if_pos (by omega : mt < 1 ∨ mt > 20)]

/-- Witness for C6 at concrete inputs. -/
theorem generate_validation_spec_witness :
    generate_tweet_thread "short" none 5 true 1 (.ok "[]")
      = .error (.validationError "Topic must be at least 10 characters long") ∧
    generate_tweet_thread "a perfectly valid topic" none 25 true 1 (.ok "[]")
      = .error (.validationError "max_tweets must be between 1 and 20") :=
  ⟨generate_validation_spec.1 "short" none 5 true 1 (.ok "[]") (by decide),
    generate_validation_spec.2.1 "a perfectly valid topic" none 25 true 1 (.ok "[]")
      (by decide) (by decide)⟩

/-! ### C7: wrapping of in-flight failures -/

/-- C7.  Every failure after validation — a model-collaborator error or a
parse failure — leaves `generate_tweet_thread` as a `GenerationFailure`
carrying the original cause, and nothing but `ValidationError` and
`GenerationFailure` can escape. -/
theorem generate_failure_wrapping :
    (∀ (topic : String) (tone : Option String) (mt : Int) (flag : Bool) (temp : ℚ)
      (e : String), 10 ≤ (pyStrip topic).length → 1 ≤ mt → mt ≤ 20 →
      generate_tweet_thread topic tone mt flag temp (.error e)
        = .error (.generationFailure (.modelError e))) ∧
    (∀ (topic : String) (tone : Option String) (mt : Int) (flag : Bool) (temp : ℚ)
      (resp m : String), 10 ≤ (pyStrip topic).length → 1 ≤ mt → mt ≤ 20 →
      parse_tweet_response resp = .error m →
      generate_tweet_thread topic tone mt flag temp (.ok resp)
        = .error (.generationFailure (.parseError m))) ∧
    (∀ (topic : String) (tone : Option String) (mt : Int) (flag : Bool) (temp : ℚ)
      (mr : Except String String) (err : GenError),
      generate_tweet_thread topic tone mt flag temp mr = .error err →
      (∃ m, err = .validationError m) ∨ (∃ c, err = .generationFailure c)) := by
  refine ⟨?_, ?_, ?_⟩
  · intro topic tone mt flag temp e h10 h1 h20
    rw [generate_unfold topic tone mt flag temp (.error e) h10 h1 h20]
  · intro topic tone mt flag temp resp m h10 h1 h20 hp
    rw [generate_unfold topic tone mt flag temp (.ok resp) h10 h1 h20]
    simp [hp]
  · intro topic tone mt flag temp mr err h
    cases err with
    | validationError m => exact Or.inl ⟨m, rfl⟩
    | generationFailure c => exact Or.inr ⟨c, rfl⟩

/-- Witness for C7 at concrete inputs. -/
theorem generate_failure_wrapping_witness :
    generate_tweet_thread "a perfectly valid topic" none 5 true 1 (.error "model down")
      = .error (.generationFailure (.modelError "model down")) ∧
    generate_tweet_thread "a perfectly valid topic" none 5 true 1 (.ok "not json at all")
      = .error (.generationFailure (.parseError parseErrorMsg)) :=
  ⟨generate_failure_wrapping.1 "a perfectly valid topic" none 5 true 1 "model down"
      (by decide) (by decide) (by decide),
    generate_failure_wrapping.2.1 "a perfectly valid topic" none 5 true 1 "not json at all"
      parseErrorMsg (by decide) (by decide) (by decide) rfl⟩

/-! ### C10: an empty parsed array is a success -/

/-- C10.  When the model completion parses to the empty JSON array,
`generate_tweet_thread` succeeds with an empty tweet list and
`tweet_count = 0`: no numbering, no error. -/
theorem generate_empty_list_ok :
    ∀ (topic : String) (tone : Option String) (mt : Int) (flag : Bool) (temp : ℚ)
      (resp : String), 10 ≤ (pyStrip topic).length → 1 ≤ mt → mt ≤ 20 →
      parse_tweet_response resp = .ok [] →
      generate_tweet_thread topic tone mt flag temp (.ok resp)
        = .ok { tweets := [], tweet_count := 0, tone := resolveTone tone, topic := topic } := by
  intro topic tone mt flag temp resp h10 h1 h20 hp
  rw [generate_unfold topic tone mt flag temp (.ok resp) h10 h1 h20]
  have henf : enforce [] flag mt = [] := by
    have h2 : numberStep flag (clampStep []) = ([] : List String) := by
      simp [clampStep, numberStep]
    unfold enforce
    rw [h2]
    unfold capStep
    rw [if_neg (by simp only [List.length_nil, Nat.cast_zero]; omega)]
  simp [hp, allStrings, henf]

/-- Witness for C10 at concrete inputs. -/
theorem generate_empty_list_ok_witness :
    generate_tweet_thread "a perfectly valid topic" none 5 true 1 (.ok "[]")
      = .ok { tweets := [], tweet_count := 0, tone := "engaging",
              topic := "a perfectly valid topic" } :=
  generate_empty_list_ok "a perfectly valid topic" none 5 true 1 "[]"
    (by decide) (by decide) (by decide) rfl

/-! ### C2: the response parser follows the ordered-attempt algorithm -/

/-- Index of the first occurrence of `c`, if any. -/
def firstIdxOf (c : Char) : List Char → Option Nat
  | [] => none
  | x :: xs => if x = c then some 0 else (firstIdxOf c xs).map (· + 1)

/-- Modelled from the claim text: the span from the first `[` to the last
`]` of the text, when the first `[` comes before the last `]`. -/
def specSliceCore (cs : List Char) : Option (List Char) :=
  match firstIdxOf '[' cs, lastIdxOf ']' cs with
  | some i, some j => if i < j then some ((cs.drop i).take (j - i + 1)) else none
  | _, _ => none

/-- Modelled from the claim text: the substring of `rawText` spanning from
the first `[` to the last `]`. -/
def specBracketSlice (s : String) : Option String :=
  (specSliceCore s.data).map String.mk

/-- Modelled from the claim text: the ordered-attempt algorithm of C2 —
whole text as JSON if it decodes to a list, else the first-to-last bracket
substring if it decodes to a list, else the `ParseError`. -/
def parseSpecAlg (rawText : String) : Except String (List Json) :=
  match jsonLoads rawText with
  | some (.jarr l) => .ok l
  | _ =>
    match specBracketSlice rawText with
    | some sub =>
      match jsonLoads sub with
      | some (.jarr l) => .ok l
      | _ => .error parseErrorMsg
    | none => .error parseErrorMsg

theorem specSliceCore_none_first {cs : List Char} (hf : firstIdxOf '[' cs = none) :
    specSliceCore cs = none := by
  unfold specSliceCore
  rw [hf]

theorem specSliceCore_none_last {cs : List Char} (hl : lastIdxOf ']' cs = none) :
    specSliceCore cs = none := by
  unfold specSliceCore
  rw [hl]
  rcases firstIdxOf '[' cs with - | i <;> rfl

theorem specSliceCore_some {cs : List Char} {i j : Nat}
    (hf : firstIdxOf '[' cs = some i) (hl : lastIdxOf ']' cs = some j) :
    specSliceCore cs = if i < j then some ((cs.drop i).take (j - i + 1)) else none := by
  unfold specSliceCore
  rw [hf, hl]

theorem regexMatchBrackets_cons (c : Char) (rest : List Char) :
    regexMatchBrackets (c :: rest)
      = if c = '[' then
          match lastIdxOf ']' rest with
          | some k => some ('[' :: rest.take (k + 1))
          | none => regexMatchBrackets rest
        else regexMatchBrackets rest := by
  simp [regexMatchBrackets]

theorem lastIdxOf_cons (c x : Char) (xs : List Char) :
    lastIdxOf c (x :: xs)
      = match lastIdxOf c xs with
        | some k => some (k + 1)
        | none => if x = c then some 0 else none := by
  simp [lastIdxOf]

theorem firstIdxOf_cons (c x : Char) (xs : List Char) :
    firstIdxOf c (x :: xs)
      = if x = c then some 0 else (firstIdxOf c xs).map (· + 1) := by
  simp [firstIdxOf]

/-- The greedy-regex search coincides with the claim's description: the
match runs from the first `[` to the last `]` whenever the former precedes
the latter, and fails otherwise. -/
theorem regexMatchBrackets_eq (cs : List Char) :
    regexMatchBrackets cs = specSliceCore cs := by
  induction cs with
  | nil => rfl
  | cons c rest ih =>
    by_cases hc : c = '['
    · subst hc
      have hfirst : firstIdxOf '[' ('[' :: rest) = some 0 := by
        rw [firstIdxOf_cons, if_pos rfl]
      rcases hlast : lastIdxOf ']' rest with - | k
      · have hregex : regexMatchBrackets ('[' :: rest) = regexMatchBrackets rest := by
          rw [regexMatchBrackets_cons, if_pos rfl, hlast]
        have hlast2 : lastIdxOf ']' ('[' :: rest) = none := by
          rw [lastIdxOf_cons, hlast]
          show (if '[' = ']' then some 0 else none) = none
          rfl
        rw [hregex, ih, specSliceCore_none_last hlast, specSliceCore_none_last hlast2]
      · have hregex : regexMatchBrackets ('[' :: rest)
            = some ('[' :: rest.take (k + 1)) := by
          rw [regexMatchBrackets_cons, if_pos rfl, hlast]
        have hlast2 : lastIdxOf ']' ('[' :: rest) = some (k + 1) := by
          rw [lastIdxOf_cons, hlast]
        rw [hregex, specSliceCore_some hfirst hlast2, if_pos (by omega : 0 < k + 1)]
        rw [List.drop_zero, show k + 1 - 0 + 1 = k + 1 + 1 from by omega]
        rfl
    · have hregex : regexMatchBrackets (c :: rest) = regexMatchBrackets rest := by
        rw [regexMatchBrackets_cons, if_neg hc]
      rw [hregex, ih]
      rcases hf : firstIdxOf '[' rest with - | i
      · have hfirst : firstIdxOf '[' (c :: rest) = none := by
          rw [firstIdxOf_cons, if_neg hc, hf]
          rfl
        rw [specSliceCore_none_first hf, specSliceCore_none_first hfirst]
      · have hfirst : firstIdxOf '[' (c :: rest) = some (i + 1) := by
          rw [firstIdxOf_cons, if_neg hc, hf]
          rfl
        rcases hl : lastIdxOf ']' rest with - | k
        · by_cases hcc : c = ']'
          · have hlast2 : lastIdxOf ']' (c :: rest) = some 0 := by
              rw [lastIdxOf_cons, hl]
              show (if c = ']' then some 0 else none) = some 0
              rw [if_pos hcc]
            rw [specSliceCore_none_last hl, specSliceCore_some hfirst hlast2,
              if_neg (by omega : ¬(i + 1 < 0))]
          · have hlast2 : lastIdxOf ']' (c :: rest) = none := by
              rw [lastIdxOf_cons, hl]
              show (if c = ']' then some 0 else none) = none
              rw [if_neg hcc]
            rw [specSliceCore_none_last hl, specSliceCore_none_last hlast2]
        · have hlast2 : lastIdxOf ']' (c :: rest) = some (k + 1) := by
            rw [lastIdxOf_cons, hl]
          rw [specSliceCore_some hf hl, specSliceCore_some hfirst hlast2]
          by_cases hik : i < k
          · rw [if_pos hik, if_pos (by omega : i + 1 < k + 1)]
            rw [List.drop_succ_cons, show k + 1 - (i + 1) + 1 = k - i + 1 from by omega]
          · rw [if_neg hik, if_neg (by omega : ¬(i + 1 < k + 1))]

/-- C2.  `parse_tweet_response` is the ordered-attempt algorithm claim C2
describes, and behaves as claimed on the two cited inputs. -/
theorem parse_response_spec :
    (∀ s : String, parse_tweet_response s = parseSpecAlg s) ∧
    parse_tweet_response "Here you go: [\"a\",\"b\"] — enjoy!" = .ok [.jstr "a", .jstr "b"] ∧
    parse_tweet_response "not json at all"
      = .error "Could not parse tweets from LLM response" := by
  refine ⟨?_, rfl, rfl⟩
  intro s
  have hb : specBracketSlice s = (regexMatchBrackets s.data).map String.mk := by
    unfold specBracketSlice
    rw [regexMatchBrackets_eq]
  unfold parse_tweet_response parseSpecAlg
  rw [hb]
  rcases hj : jsonLoads s with - | v
  · rcases hr : regexMatchBrackets s.data with - | sub <;> simp
  · cases v <;> simp <;> rcases hr : regexMatchBrackets s.data with - | sub <;> simp

/-! ### C3: the numbering step -/

/-- C3 (amended: the 280 bound needs every numbering prefix to fit in 277
characters, which holds whenever the list is of any physically realizable
size; with rarer-than-astronomical totals the Python slice bound
`280 - len(prefix) - 3` goes negative and the re-trimmed tweet exceeds
280, see the counterexample).  Numbering applies only when requested and
when the clamped list has more than one element; element `i` (1-based) of
`total` gets the `[i/total] ` prefix; when the prefix would push past 280
the body is re-trimmed to `280 - len(prefix) - 3` characters plus `"..."`
(exactly 280 in that case); a singleton gets no prefix. -/
theorem numbering_spec_amended :
    (∀ (ts : List String) (mt : Int), enforce ts false mt = capStep mt (clampStep ts)) ∧
    (∀ (ts : List String) (mt : Int), (clampStep ts).length ≤ 1 →
      enforce ts true mt = capStep mt (clampStep ts)) ∧
    (∀ (ts : List String) (i : Nat),
      (add_thread_numbering ts)[i]? = (ts[i]?).map (numberOne ts.length (i + 1))) ∧
    (∀ (total i : Nat) (t : String), (threadNumberStr i total).length ≤ 277 →
      ((threadNumberStr i total ++ t).length ≤ 280 →
        numberOne total i t = threadNumberStr i total ++ t) ∧
      (280 < (threadNumberStr i total ++ t).length →
        numberOne total i t
          = threadNumberStr i total
              ++ (String.mk (t.data.take (277 - (threadNumberStr i total).length)) ++ "...") ∧
        (numberOne total i t).length = 280) ∧
      (numberOne total i t).length ≤ 280) ∧
    (enforce ["short1", "short2"] true 5 = ["[1/2] short1", "[2/2] short2"]) ∧
    (∀ (t : String) (mt : Int), enforce [t] true mt = capStep mt (clampStep [t])) := by
  refine ⟨?_, ?_, ?_, ?_, by decide, ?_⟩
  · intro ts mt
    simp [enforce, numberStep]
  · intro ts mt h
    unfold enforce numberStep
    rw [if_neg (by intro hc; omega : ¬(true = true ∧ (clampStep ts).length > 1))]
  · intro ts i
    unfold add_thread_numbering
    rw [numberFrom_getElem? ts.length ts 1 i, Nat.add_comm 1 i]
  · intro total i t hL
    exact ⟨numberOne_of_fits,
      fun h => ⟨numberOne_of_over hL h, numberOne_length_over hL h⟩,
      numberOne_length_le t hL⟩
  · intro t mt
    unfold enforce numberStep
    rw [if_neg (by intro hc; simp [clampStep] at hc : ¬(true = true ∧ (clampStep [t]).length > 1))]

/-- Witness for C3 at concrete inputs. -/
theorem numbering_spec_amended_witness :
    numberOne 2 1 "short1" = threadNumberStr 1 2 ++ "short1" ∧
    enforce ["lone tweet"] true 7 = capStep 7 (clampStep ["lone tweet"]) :=
  ⟨(numbering_spec_amended.2.2.2.1 2 1 "short1" (by decide)).1 (by decide),
    numbering_spec_amended.2.2.2.2.2 "lone tweet" 7⟩

theorem repr_pow276_length : (toString (10 ^ 276 : Nat)).length = 277 := by decide

theorem tn_one_giant_length : (threadNumberStr 1 (10 ^ 276)).length = 282 := by
  unfold threadNumberStr
  simp only [String.length_append]
  rw [repr_pow276_length]
  decide

theorem numberOne_giant :
    numberOne (10 ^ 276) 1 "" = threadNumberStr 1 (10 ^ 276) ++ "..." := by
  unfold numberOne
  rw [if_neg (by rw [String.length_append, tn_one_giant_length]; decide)]
  rw [pySliceStr_empty]
  congr 1

theorem pow276_pos : (5 : Nat) ≤ 10 ^ 276 := by norm_num

theorem enforce_giant_eq :
    enforce (List.replicate (10 ^ 276) "") true 5
      = (numberFrom (10 ^ 276) 1 (List.replicate (10 ^ 276) "")).take 5 := by
  unfold enforce
  have hclamp : clampStep (List.replicate (10 ^ 276) "") = List.replicate (10 ^ 276) "" := by
    unfold clampStep
    rw [List.map_replicate, clampTweet_of_le (by decide)]
  rw [hclamp]
  have hnum : numberStep true (List.replicate (10 ^ 276) "")
      = numberFrom (10 ^ 276) 1 (List.replicate (10 ^ 276) "") := by
    unfold numberStep
    rw [if_pos ⟨rfl, by rw [List.length_replicate]; have := pow276_pos; omega⟩]
    unfold add_thread_numbering
    rw [List.length_replicate]
  rw [hnum]
  unfold capStep
  rw [if_pos (by rw [numberFrom_length, List.length_replicate]; push_cast; norm_num),
    pySliceList_nonneg 5 (by norm_num)]
  rfl

theorem enforce_giant_head :
    (enforce (List.replicate (10 ^ 276) "") true 5).head?
      = some (threadNumberStr 1 (10 ^ 276) ++ "...") := by
  rw [enforce_giant_eq]
  have hrep : List.replicate (10 ^ 276) "" = "" :: List.replicate (10 ^ 276 - 1) "" := by
    rw [← List.replicate_succ]
    congr 1
  rw [hrep]
  have hcons : numberFrom (10 ^ 276) 1 ("" :: List.replicate (10 ^ 276 - 1) "")
      = numberOne (10 ^ 276) 1 ""
          :: numberFrom (10 ^ 276) 2 (List.replicate (10 ^ 276 - 1) "") := rfl
  rw [hcons]
  have htake : ∀ (a : String) (l : List String), (a :: l).take 5 = a :: l.take 4 := by
    intro a l
    rfl
  rw [htake, List.head?_cons, numberOne_giant]

theorem enforce_giant_length :
    (enforce (List.replicate (10 ^ 276) "") true 5).length = 5 := by
  rw [enforce_giant_eq, List.length_take, numberFrom_length, List.length_replicate]
  have := pow276_pos
  omega

/-- C3 counterexample: on a (mathematically well-defined, physically
absurd) list of `10^276` empty strings the numbering prefix alone is 282
characters, the Python re-trim slice bound is negative, and the first
element of `enforce`'s output has length 285 > 280 — refuting the claim
that every resulting element has length at most 280. -/
theorem numbering_overlong_counterexample :
    (enforce (List.replicate (10 ^ 276) "") true 5).head?
        = some (threadNumberStr 1 (10 ^ 276) ++ "...") ∧
    280 < (threadNumberStr 1 (10 ^ 276) ++ "...").length := by
  refine ⟨enforce_giant_head, ?_⟩
  rw [String.length_append, tn_one_giant_length]
  decide

/-! ### C1: result invariants of the orchestrator -/

theorem skipWs_cons_not_ws {c : Char} (h : isJsonWs c = false) (cs : List Char) :
    skipWs (c :: cs) = c :: cs := by
  simp [skipWs, List.dropWhile_cons, h]

theorem parseStringBody_quote (rest : List Char) :
    parseStringBody ('"' :: rest) = some ("", rest) := rfl

theorem parseValue_quote_quote (fuel : Nat) (rest : List Char) :
    parseValue (fuel + 1) ('"' :: '"' :: rest) = some (.jstr "", rest) := by
  simp only [parseValue]
  rw [skipWs_cons_not_ws (by decide)]
  simp [parseStringBody_quote]

theorem parseItems_succ (fuel : Nat) (cs : List Char) :
    parseItems (fuel + 1) cs
      = match parseValue fuel cs with
        | none => none
        | some (v, rest) =>
          match skipWs rest with
          | ',' :: rest2 =>
            match parseItems fuel rest2 with
            | some (vs, r) => some (v :: vs, r)
            | none => none
          | ']' :: rest2 => some ([v], rest2)
          | _ => none := by
  simp only [parseItems]

/-- The repeated body of the astronomically long model response: `n + 1`
empty JSON strings separated by commas, with the closing bracket. -/
def giantChunks : Nat → List Char
  | 0 => ['"', '"', ']']
  | n + 1 => '"' :: '"' :: ',' :: giantChunks n

theorem giantChunks_shape (n : Nat) : ∃ t, giantChunks n = '"' :: '"' :: t := by
  cases n with
  | zero => exact ⟨[']'], rfl⟩
  | succ m => exact ⟨',' :: giantChunks m, rfl⟩

theorem giantChunks_length (n : Nat) : (giantChunks n).length = 3 * n + 3 := by
  induction n with
  | zero => rfl
  | succ m ih =>
    show (giantChunks m).length + 1 + 1 + 1 = 3 * (m + 1) + 3
    omega

theorem parseItems_giant : ∀ (n fuel : Nat), 2 * n + 2 ≤ fuel →
    parseItems fuel (giantChunks n) = some (List.replicate (n + 1) (.jstr ""), []) := by
  intro n
  induction n with
  | zero =>
    intro fuel hfuel
    obtain ⟨f, rfl⟩ : ∃ f, fuel = f + 1 := ⟨fuel - 1, by omega⟩
    obtain ⟨g, rfl⟩ : ∃ g, f = g + 1 := ⟨f - 1, by omega⟩
    rw [show giantChunks 0 = '"' :: '"' :: [']'] from rfl, parseItems_succ,
      parseValue_quote_quote]
    rfl
  | succ m ih =>
    intro fuel hfuel
    obtain ⟨f, rfl⟩ : ∃ f, fuel = f + 1 := ⟨fuel - 1, by omega⟩
    obtain ⟨g, rfl⟩ : ∃ g, f = g + 1 := ⟨f - 1, by omega⟩
    rw [show giantChunks (m + 1) = '"' :: '"' :: ',' :: giantChunks m from rfl,
      parseItems_succ, parseValue_quote_quote]
    simp only [skipWs_cons_not_ws (show isJsonWs ',' = false from by decide)]
    rw [ih (g + 1) (by omega)]
    rfl

theorem parseValue_giant (n : Nat) : ∀ fuel : Nat, 2 * n + 4 ≤ fuel →
    parseValue fuel ('[' :: giantChunks n)
      = some (.jarr (List.replicate (n + 1) (.jstr "")), []) := by
  intro fuel hfuel
  obtain ⟨f, rfl⟩ : ∃ f, fuel = f + 1 := ⟨fuel - 1, by omega⟩
  obtain ⟨t, ht⟩ := giantChunks_shape n
  have hitems := parseItems_giant n f (by omega)
  rw [ht] at hitems
  simp only [parseValue]
  rw [skipWs_cons_not_ws (by decide), ht]
  simp [skipWs_cons_not_ws, isJsonWs, hitems]

/-- An astronomically long but perfectly well-formed model response: a
JSON array of `10^276` empty strings. -/
def giantResp : String := String.mk ('[' :: giantChunks (10 ^ 276 - 1))

theorem jsonLoads_of_parseValue (s : String) (v : Json)
    (h : parseValue (2 * s.length + 2) s.data = some (v, [])) : jsonLoads s = some v := by
  unfold jsonLoads
  rw [h]
  rfl

theorem jsonLoads_giant :
    jsonLoads giantResp = some (.jarr (List.replicate (10 ^ 276) (.jstr ""))) := by
  have hsucc : 10 ^ 276 - 1 + 1 = 10 ^ 276 := by
    have := pow276_pos
    omega
  refine jsonLoads_of_parseValue giantResp _ ?_
  rw [show giantResp.data = '[' :: giantChunks (10 ^ 276 - 1) from rfl,
    show giantResp.length = 3 * (10 ^ 276 - 1) + 4 from by
      show ('[' :: giantChunks (10 ^ 276 - 1)).length = _
      rw [List.length_cons, giantChunks_length],
    parseValue_giant (10 ^ 276 - 1) _ (by omega), hsucc]

theorem allStrings_replicate (s : String) :
    ∀ n : Nat, allStrings (List.replicate n (.jstr s)) = some (List.replicate n s) := by
  intro n
  induction n with
  | zero => rfl
  | succ m ih =>
    rw [List.replicate_succ, show allStrings (Json.jstr s :: List.replicate m (.jstr s))
      = (allStrings (List.replicate m (.jstr s))).map (s :: ·) from rfl, ih]
    rfl

theorem parse_of_jsonLoads_arr (s : String) (l : List Json)
    (h : jsonLoads s = some (.jarr l)) : parse_tweet_response s = .ok l := by
  unfold parse_tweet_response
  rw [h]

theorem parse_giant :
    parse_tweet_response giantResp = .ok (List.replicate (10 ^ 276) (.jstr "")) :=
  parse_of_jsonLoads_arr giantResp _ jsonLoads_giant

/-- C1 (amended: the 280-character bound on every returned tweet needs
the numbering prefixes over the parsed list to fit in 277 characters,
which holds for every physically realizable list; see the counterexample
for the astronomical exception).  A successful `generate_tweet_thread`
whose parsed model response is a list of strings returns a record with
`tweet_count` equal to the number of tweets, every tweet at most 280
characters, and at most `max_tweets` tweets. -/
theorem generate_result_invariants :
    ∀ (topic : String) (tone : Option String) (mt : Int) (flag : Bool) (temp : ℚ)
      (resp : String) (js : List Json) (ts : List String) (r : GenerationResult),
      parse_tweet_response resp = .ok js →
      allStrings js = some ts →
      (∀ i, i < ts.length → (threadNumberStr (i + 1) ts.length).length ≤ 277) →
      generate_tweet_thread topic tone mt flag temp (.ok resp) = .ok r →
      r.tweet_count = r.tweets.length ∧ (∀ t ∈ r.tweets, t.length ≤ 280) ∧
        (r.tweet_count : Int) ≤ mt := by
  intro topic tone mt flag temp resp js ts r hp ha hfit hgen
  by_cases h10 : 10 ≤ (pyStrip topic).length
  case neg =>
    unfold generate_tweet_thread at hgen
    rw [if_pos (Or.inr (by omega))] at hgen
    cases hgen
  by_cases hmt : 1 ≤ mt ∧ mt ≤ 20
  case neg =>
    unfold generate_tweet_thread at hgen
    rw [if_neg (topic_valid h10), if_pos (by omega)] at hgen
    cases hgen
  obtain ⟨h1, h20⟩ := hmt
  rw [generate_unfold topic tone mt flag temp (.ok resp) h10 h1 h20] at hgen
  simp only [hp, ha] at hgen
  obtain rfl : _ = r := Except.ok.inj hgen
  refine ⟨rfl, ?_, ?_⟩
  · intro t ht
    unfold enforce at ht
    have ht2 := mem_capStep ht
    have hlen : (clampStep ts).length = ts.length := by simp [clampStep]
    unfold numberStep at ht2
    split at ht2
    · obtain ⟨i, hi⟩ := List.mem_iff_getElem?.mp ht2
      unfold add_thread_numbering at hi
      rw [numberFrom_getElem?] at hi
      rcases hg : (clampStep ts)[i]? with - | u
      · rw [hg] at hi
        cases hi
      · rw [hg] at hi
        have hi_lt : i < ts.length := by
          by_contra hge
          rw [List.getElem?_eq_none (by omega : (clampStep ts).length ≤ i)] at hg
          cases hg
        have heq : numberOne (clampStep ts).length (1 + i) u = t := Option.some.inj hi
        rw [← heq]
        exact numberOne_length_le u
          (by rw [hlen, Nat.add_comm 1 i]; exact hfit i hi_lt)
    · obtain ⟨y, -, rfl⟩ := List.mem_map.mp ht2
      exact clampTweet_length_le y
  · exact length_capStep_le mt (by omega) _

/-- Witness result record for C1 at the spec's end-to-end example. -/
def sampleResult : GenerationResult :=
  { tweets := ["[1/3] Tweet about AI", "[2/3] Another point", "[3/3] Final thought"],
    tweet_count := 3, tone := "engaging", topic := "Exploring AI ethics and governance" }

/-- Witness for C1 at the spec's end-to-end example. -/
theorem generate_result_invariants_witness :
    sampleResult.tweet_count = sampleResult.tweets.length ∧
    (∀ t ∈ sampleResult.tweets, t.length ≤ 280) ∧
    (sampleResult.tweet_count : Int) ≤ 3 :=
  generate_result_invariants "Exploring AI ethics and governance" none 3 true 1
    "[\"Tweet about AI\",\"Another point\",\"Final thought\"]"
    [.jstr "Tweet about AI", .jstr "Another point", .jstr "Final thought"]
    ["Tweet about AI", "Another point", "Final thought"] sampleResult
    rfl rfl (by decide) rfl

/-- C1 counterexample: a successful call whose parsed response is a list
of `10^276` (empty) strings returns a first tweet of 285 characters —
refuting the unconditional 280-character bound while `tweet_count` and
the cap behave as claimed. -/
theorem generate_ok_strings (topic : String) (tone : Option String) (mt : Int) (flag : Bool)
    (temp : ℚ) (resp : String) (js : List Json) (ts : List String)
    (h10 : 10 ≤ (pyStrip topic).length) (h1 : 1 ≤ mt) (h20 : mt ≤ 20)
    (hp : parse_tweet_response resp = .ok js) (ha : allStrings js = some ts) :
    generate_tweet_thread topic tone mt flag temp (.ok resp)
      = .ok { tweets := enforce ts flag mt, tweet_count := (enforce ts flag mt).length,
              tone := resolveTone tone, topic := topic } := by
  rw [generate_unfold topic tone mt flag temp (.ok resp) h10 h1 h20]
  simp only [hp, ha]

theorem map_count_head (ts' : List String) (tn tp : String) :
    Except.map (fun r : GenerationResult => (r.tweet_count, r.tweets.head?))
      (Except.ok { tweets := ts', tweet_count := ts'.length, tone := tn, topic := tp }
        : Except GenError GenerationResult)
      = Except.ok (ts'.length, ts'.head?) := rfl

theorem generate_overlong_counterexample :
    (generate_tweet_thread "Exploring AI ethics and governance" none 5 true 1
        (Except.ok giantResp)).map (fun r => (r.tweet_count, r.tweets.head?))
      = Except.ok (5, some (threadNumberStr 1 (10 ^ 276) ++ "...")) ∧
    280 < (threadNumberStr 1 (10 ^ 276) ++ "...").length := by
  constructor
  · rw [generate_ok_strings "Exploring AI ethics and governance" none 5 true 1 giantResp
      (List.replicate (10 ^ 276) (.jstr "")) (List.replicate (10 ^ 276) "")
      (by decide) (by decide) (by decide) parse_giant (allStrings_replicate "" (10 ^ 276))]
    rw [map_count_head, enforce_giant_length, enforce_giant_head]
  · rw [String.length_append, tn_one_giant_length]
    decide

end TweetGen
